import Mathlib

/-!
Shallow embedding of `orca_addGradientInfill.py` (version 2.0).

Modelling conventions:
* Python floats are modelled as exact real numbers (`ℝ`); `math`-style
  `x ** 0.5` becomes `Real.sqrt`.
* Python strings are Lean `String`s; `str.startswith` and `in` (substring)
  tests are carried out on the underlying character lists.
* The numeric values extracted by regular expressions / `float(...)` are
  carried as explicit fields of the line representation (`GLine`), with
  `Option` recording whether the extraction would succeed; the control flow
  of the processing loop is translated literally from the source.
* Fatal conditions (`exit(1)`, uncaught `ValueError` / `SyntaxError` /
  `NameError`) become an `Except PErr` result; the in-place rewrite of the
  input file (which the script performs only after the whole loop has
  finished) is modelled by the fact that the output line list exists only
  in the `.ok` case.
* `round(x, n)` is modelled as rounding `x * 10^n` to the nearest integer
  (Python uses round-half-to-even at exact ties; no claim below depends on
  tie behaviour).
-/

namespace OrcaGradientInfill

/-- `p.isPrefixOf l` on the character data: model of Python `str.startswith`. -/
def strStartsWith (line pre : String) : Bool :=
  pre.data.isPrefixOf line.data

/-- Substring containment on character data: model of Python `sub in s`. -/
def isSubstr (needle : List Char) : List Char → Bool
  | [] => needle.isPrefixOf []
  | c :: rest => needle.isPrefixOf (c :: rest) || isSubstr needle rest

/-- Model of Python `sub in s` on strings. -/
def strIn (needle line : String) : Bool :=
  isSubstr needle.data line.data

/-- Drop characters up to and including the first occurrence of `c`. -/
def dropThrough (c : Char) : List Char → Option (List Char)
  | [] => none
  | x :: xs => if x = c then some xs else dropThrough c xs

/-- `inOrder cs hay`: the characters `cs` occur in `hay` in this order
(model of a regex `.*c₁.*c₂...` fragment). -/
def inOrder : List Char → List Char → Bool
  | [], _ => true
  | c :: cs, hay =>
    match dropThrough c hay with
    | none => false
    | some rest => inOrder cs rest

/-- `class InfillType(Enum)` (source lines 32-35). -/
inductive InfillType
  | SMALL_SEGMENTS
  | LINEAR
deriving DecidableEq, Repr

/-- `Point2D = namedtuple('Point2D', 'x y')` (source line 37). -/
structure Point2D where
  x : ℝ
  y : ℝ

/-- `Segment = namedtuple('Segment', 'point1 point2')` (source line 38). -/
structure Segment where
  point1 : Point2D
  point2 : Point2D

/-- `class Section(Enum)` (source lines 58-62). -/
inductive Section
  | NOTHING
  | INNER_WALL
  | INFILL
deriving DecidableEq, Repr

/-- `dist(segment, point)` (source lines 64-80): distance from a point to a
finite segment.  The `try/except ZeroDivisionError: return 0` around the
division by `norm` becomes the `if norm = 0` branch. -/
noncomputable def dist (segment : Segment) (point : Point2D) : ℝ :=
  let px := segment.point2.x - segment.point1.x
  let py := segment.point2.y - segment.point1.y
  let norm := px * px + py * py
  if norm = 0 then 0
  else
    let u := ((point.x - segment.point1.x) * px + (point.y - segment.point1.y) * py) / norm
    let u' := max (min u 1) 0
    let x := segment.point1.x + u' * px
    let y := segment.point1.y + u' * py
    let dx := x - point.x
    let dy := y - point.y
    Real.sqrt (dx * dx + dy * dy)

/-- `get_points_distance(point1, point2)` (source lines 82-84). -/
noncomputable def get_points_distance (point1 point2 : Point2D) : ℝ :=
  Real.sqrt ((point1.x - point2.x) ^ 2 + (point1.y - point2.y) ^ 2)

/-- Python `min` over a list of reals, `⊤` playing the role of
`float('inf')` for the empty list. -/
noncomputable def listMin (l : List ℝ) : WithTop ℝ :=
  l.foldr (fun x m => min (↑x) m) ⊤

/-- `min_distance_from_segment(segment, segments)` (source lines 86-89):
minimum distance from the midpoint of `segment` to the segments of
`segments`; `float('inf')` (here `⊤`) when `segments` is empty. -/
noncomputable def min_distance_from_segment (segment : Segment) (segments : List Segment) :
    WithTop ℝ :=
  let middlePoint : Point2D :=
    ⟨(segment.point1.x + segment.point2.x) / 2, (segment.point1.y + segment.point2.y) / 2⟩
  match segments with
  | [] => ⊤
  | _ => listMin (segments.map fun s => dist s middlePoint)

/-- `mapRange(a, b, s)` (source lines 108-113). -/
noncomputable def mapRange (a b : ℝ × ℝ) (s : ℝ) : ℝ :=
  if a.2 - a.1 = 0 then b.1
  else b.1 + ((s - a.1) * (b.2 - b.1) / (a.2 - a.1))

/-- Python `round(x, n)`: round to `n` decimal places (half-to-even ties in
Python; modelled with Mathlib's `round`, which only differs at exact ties). -/
noncomputable def pyround (x : ℝ) (n : ℕ) : ℝ :=
  ((round (x * 10 ^ n) : ℤ) : ℝ) / 10 ^ n

/-- `reduce_by_percentage(value, percentage)` (source lines 200-201).
Python raises `ZeroDivisionError` when `percentage = 0`; Lean's total
division returns `0` there (no claim below touches that case). -/
noncomputable def reduce_by_percentage (value percentage : ℝ) : ℝ :=
  value / (percentage / 100)

/-- `is_begin_inner_wall_line(line)` (source lines 126-128). -/
def is_begin_inner_wall_line (line : String) : Bool :=
  strStartsWith line ";TYPE:Inner wall"

/-- `is_end_inner_wall_line(line)` (source lines 130-132). -/
def is_end_inner_wall_line (line : String) : Bool :=
  strStartsWith line ";TYPE:Outer wall" || strStartsWith line ";TYPE:Solid infill" ||
    strStartsWith line ";TYPE:Skin"

/-- `is_extrusion_line(line)` (source lines 134-136). -/
def is_extrusion_line (line : String) : Bool :=
  strIn "G1" line && strIn " X" line && strIn "Y" line && strIn "E" line

/-- `is_begin_infill_segment_line(line)` (source lines 138-140). -/
def is_begin_infill_segment_line (line : String) : Bool :=
  strStartsWith line ";TYPE:Sparse infill" || strStartsWith line ";TYPE:Infill"

/-- `prog_type.search(line)` for the anchored regex `^;TYPE:` (source line 214). -/
def prog_type_matches (line : String) : Bool :=
  strStartsWith line ";TYPE:"

/-- `prog_move.search(line)` for `^G[0-1].*X.*Y` (source line 212). -/
def prog_move_matches (line : String) : Bool :=
  (strStartsWith line "G0" || strStartsWith line "G1") && inOrder ['X', 'Y'] (line.data.drop 2)

/-- `prog_extrusion.search(line)` for `^G1.*X.*Y.*E` (source line 213). -/
def prog_extrusion_matches (line : String) : Bool :=
  strStartsWith line "G1" && inOrder ['X', 'Y', 'E'] (line.data.drop 2)

/-- `prog_g2_g3.search(line)` for `^G[2-3]` (source line 215). -/
def prog_g2_g3_matches (line : String) : Bool :=
  strStartsWith line "G2" || strStartsWith line "G3"

/-- `prog_relative_extrusion.search(line)` for `^M83` (source line 216). -/
def prog_relative_extrusion_matches (line : String) : Bool :=
  strStartsWith line "M83"

/-- `prog_absolute_extrusion.search(line)` for `^M82` (source line 217). -/
def prog_absolute_extrusion_matches (line : String) : Bool :=
  strStartsWith line "M82"

/-- One element of `currentLine.strip().split(" ")`: the raw token together
with the value `float(element[1:])` would produce (`none` when that call
would raise `ValueError`). -/
structure Tok where
  raw : String
  num : Option ℝ

/-- `"E" in element` for a token. -/
def Tok.hasE (t : Tok) : Bool := t.raw.data.contains 'E'

/-- `"F" in element` for a token. -/
def Tok.hasF (t : Tok) : Bool := t.raw.data.contains 'F'

/-- One input G-code line.  `text` is the raw line (with trailing newline,
as produced by `readlines`); the remaining fields carry the results of the
numeric extractions the script performs on the raw text:
`tokens` is `text.strip().split(" ")`, `xy` is what `getXY(text)` returns
(`none` when `getXY` would raise `SyntaxError`/`ValueError`, source lines
95-106), and `fMatch` is the parsed capture of `prog_g1_feedrate`
(`^G1.+F([\d\.]+)`, source line 218): `none` when the regex does not match,
`some none` when it matches but `float` on the capture would raise, and
`some (some v)` for a successful parse. -/
structure GLine where
  text : String
  tokens : List Tok
  xy : Option Point2D
  fMatch : Option (Option ℝ)

/-- A token of a rebuilt output line (source lines 343-355 and 364-381):
either an input token kept verbatim, a replaced extrusion field
`"E" + str(round(v, 5))`, or an appended feedrate field. -/
inductive OutTok
  | keep (raw : String)
  | efield (v : ℝ)
  | ffield (v : ℝ)

/-- One output line: a line passed through verbatim, a synthesized
`get_extrusion_command` line, or a token-rebuilt line. -/
inductive OutLine
  | raw (text : String)
  | cmd (x y e : ℝ) (f : Option ℝ)
  | rebuilt (toks : List OutTok)

/-- `get_extrusion_command(x, y, extrusion, feedrate)` (source lines 115-120),
producing an `OutLine.cmd` with the rounded fields (the `F` field is present
only when `feedrate > 0`). -/
noncomputable def get_extrusion_command (x y extrusion feedrate : ℝ) : OutLine :=
  if feedrate > 0 then
    .cmd (pyround x 3) (pyround y 3) (pyround extrusion 5) (some (pyround feedrate 3))
  else
    .cmd (pyround x 3) (pyround y 3) (pyround extrusion 5) none

/-- The fatal conditions that abort a run before the output file is written:
the triple-printed `exit(1)` for absolute extrusion inside infill (source
lines 275-279), the explicit `ValueError` for a missing extrusion length
(source line 302), `float(...)` failures on a token (`ValueError`), `getXY`
failures (`SyntaxError`/`ValueError`, source line 104), a failed `float` on
the feedrate capture, and the unbound-`newF` `NameError` (source line 380). -/
inductive PErr
  | relativeExtrusionAbort
  | noExtrusionLength
  | tokenFloatError
  | xyParseError
  | feedrateFloatError
  | nameErrorNewF
deriving DecidableEq, Repr

/-- The four configuration values handed to `process_gcode_file`. -/
structure Params where
  max_flow : ℝ
  min_flow : ℝ
  gradient_thickness : ℝ
  gradient_discretization : ℝ

/-- The mutable loop state of `process_gcode_file` (source lines 220-231).
`relative_extrusion` is initialised `False` at source line 226 and is never
assigned anywhere else; `newF` models the function-scoped Python local of
the same name (unbound until first assigned, and persisting across loop
iterations once assigned). -/
structure PState where
  lines : List OutLine
  edit : ℕ
  currentSection : Section
  lastPosition : Point2D
  relative_extrusion : Bool
  g2_g3_used : Bool
  g2_g3_lines : List String
  relative_extrusion_set : Bool
  g1_feedrate : ℝ
  newF : Option ℝ
  perimeterSegments : List Segment

/-- The initial loop state (source lines 220-231 and 224). -/
noncomputable def initState : PState where
  lines := []
  edit := 0
  currentSection := .NOTHING
  lastPosition := ⟨-10000, -10000⟩
  relative_extrusion := false
  g2_g3_used := false
  g2_g3_lines := []
  relative_extrusion_set := false
  g1_feedrate := 0
  newF := none
  perimeterSegments := []

/-- The extrusion-mode bookkeeping (source lines 250-254): `^M83` sets the
flag, `^M82` clears it, anything else leaves it alone. -/
def updateExtrusionFlag (flag : Bool) (text : String) : Bool :=
  if prog_relative_extrusion_matches text then true
  else if prog_absolute_extrusion_matches text then false
  else flag

/-- The section-marker dispatch (source lines 258-268): evaluated on every
line; only lines matching `^;TYPE:` change the section, and the
begin-infill marker additionally resets `g1_feedrate` to `0`. -/
noncomputable def applySectionMarker (cur : Section) (g1_feedrate : ℝ) (text : String) :
    Section × ℝ :=
  if prog_type_matches text then
    if is_begin_inner_wall_line text then (.INNER_WALL, g1_feedrate)
    else if is_end_inner_wall_line text then (.NOTHING, g1_feedrate)
    else if is_begin_infill_segment_line text then (.INFILL, 0)
    else (.NOTHING, g1_feedrate)
  else (cur, g1_feedrate)

/-- Python `str.strip()` on character data. -/
def pyStrip (cs : List Char) : List Char :=
  ((cs.dropWhile Char.isWhitespace).reverse.dropWhile Char.isWhitespace).reverse

/-- Python `str.strip()` on strings. -/
def pyStripStr (s : String) : String :=
  ⟨pyStrip s.data⟩

/-- The capture of `^; sparse_infill_pattern = (.+)` (source line 145): the
rest of the line up to the newline, provided it is nonempty. -/
def sparse_infill_pattern_capture (line : String) : Option String :=
  if strStartsWith line "; sparse_infill_pattern = " then
    let rest := (line.data.drop "; sparse_infill_pattern = ".data.length).takeWhile (· ≠ '\n')
    if rest = [] then none else some ⟨rest⟩
  else none

/-- `extract_infill_type(gcode_lines)` (source lines 142-159). -/
def extract_infill_type (gcode_lines : List String) : InfillType :=
  match gcode_lines.findSome? sparse_infill_pattern_capture with
  | some pat =>
    let p : String := ⟨(pyStrip pat.data).map Char.toLower⟩
    if p ∈ ["gyroid", "honeycomb", "adaptivecubic", "cubic", "tetrahedral"] then
      .SMALL_SEGMENTS
    else .LINEAR
  | none => .LINEAR

/-- The `for element in splitLine: if "E" in element: extrusionLength =
float(element[1:])` scan of the LINEAR branch (source lines 297-300): the
last extrusion token wins; an unparseable extrusion token raises. -/
def findExtrusionLength : List Tok → Option ℝ → Except PErr (Option ℝ)
  | [], acc => .ok acc
  | t :: ts, acc =>
    if t.hasE then
      match t.num with
      | none => .error .tokenFloatError
      | some v => findExtrusionLength ts (some v)
    else findExtrusionLength ts acc

/-- The whole-sub-segment loop of the LINEAR branch (source lines 315-331):
`n` is `int(segmentSteps)`; returns the final `lastPosition` and the output
lines accumulated so far. -/
noncomputable def linearLoop (P : Params) (perims : List Segment) (dir : Point2D)
    (extrusionLengthPerSegment g1_feedrate : ℝ) :
    ℕ → Point2D → List OutLine → Point2D × List OutLine
  | 0, pos, acc => (pos, acc)
  | n + 1, pos, acc =>
    let segmentEnd : Point2D := ⟨pos.x + dir.x, pos.y + dir.y⟩
    let shortestDistance := min_distance_from_segment ⟨pos, segmentEnd⟩ perims
    let extrusion_ratio := mapRange (0, P.gradient_thickness)
      (P.max_flow / 100, P.min_flow / 100)
      (WithTop.untop' 0 (min shortestDistance ↑P.gradient_thickness))
    let segmentExtrusion := extrusionLengthPerSegment * extrusion_ratio
    let feedrate := reduce_by_percentage g1_feedrate (extrusion_ratio * 100)
    linearLoop P perims dir extrusionLengthPerSegment g1_feedrate n segmentEnd
      (acc ++ [get_extrusion_command segmentEnd.x segmentEnd.y segmentExtrusion feedrate])

/-- The token rebuild of the `segmentSteps < 2` fallback of the LINEAR
branch (source lines 343-351): extrusion tokens are replaced by
`E(round(v * max_flow / 100, 5))`, everything else is kept. -/
noncomputable def linearFallbackToks (max_flow : ℝ) : List Tok → Except PErr (List OutTok)
  | [] => .ok []
  | t :: ts =>
    if t.hasE then
      match t.num with
      | none => .error .tokenFloatError
      | some v =>
        (linearFallbackToks max_flow ts).map (.efield (pyround (v * max_flow / 100) 5) :: ·)
    else (linearFallbackToks max_flow ts).map (.keep t.raw :: ·)

/-- The token rebuild of the SMALL_SEGMENTS branch (source lines 364-374). -/
noncomputable def smallSegToks (P : Params) (shortestDistance : WithTop ℝ) :
    List Tok → Except PErr (List OutTok)
  | [] => .ok []
  | t :: ts =>
    if t.hasE then
      match t.num with
      | none => .error .tokenFloatError
      | some v =>
        let newE := if shortestDistance < ↑P.gradient_thickness then
            v * mapRange (0, P.gradient_thickness) (P.max_flow / 100, P.min_flow / 100)
              (WithTop.untop' 0 shortestDistance)
          else v * P.min_flow / 100
        (smallSegToks P shortestDistance ts).map (.efield (pyround newE 5) :: ·)
    else (smallSegToks P shortestDistance ts).map (.keep t.raw :: ·)

/-- The LINEAR-infill rewrite for one infill extrusion line (source lines
295-357), acting on the state `st4` reached after the feedrate tracking. -/
noncomputable def linearHandler (P : Params) (gradientDiscretizationLength : ℝ)
    (st4 : PState) (tokens : List Tok) (currentPosition : Point2D) : Except PErr PState := do
  let elOpt ← findExtrusionLength tokens none
  match elOpt with
  | none => .error PErr.noExtrusionLength
  | some extrusionLength =>
    let segmentLength := get_points_distance st4.lastPosition currentPosition
    let segmentSteps := if segmentLength = 0 then 1
      else segmentLength / gradientDiscretizationLength
    let extrusionLengthPerSegment :=
      if segmentSteps ≠ 0 then extrusionLength / segmentSteps else 0
    let segmentDirection : Point2D :=
      ⟨if segmentSteps ≠ 0 then
          (currentPosition.x - st4.lastPosition.x) / segmentSteps else 0,
       if segmentSteps ≠ 0 then
          (currentPosition.y - st4.lastPosition.y) / segmentSteps else 0⟩
    if segmentSteps ≥ 2 then
      let r := linearLoop P st4.perimeterSegments segmentDirection
        extrusionLengthPerSegment st4.g1_feedrate
        (⌊segmentSteps⌋.toNat) st4.lastPosition st4.lines
      -- missing segment (source lines 332-341)
      let segmentLengthRatio :=
        if segmentLength ≠ 0 then
          get_points_distance r.1 currentPosition / segmentLength
        else 0
      pure { st4 with
        lines := r.2 ++ [get_extrusion_command currentPosition.x currentPosition.y
          (segmentLengthRatio * extrusionLength * P.max_flow / 100)
          (reduce_by_percentage st4.g1_feedrate P.max_flow)],
        edit := st4.edit + 1,
        lastPosition := currentPosition }
    else do
      -- fallback single-line rewrite (source lines 342-355)
      let toks ← linearFallbackToks P.max_flow tokens
      let feedrate_set := tokens.any Tok.hasF
      let outToks := if feedrate_set then toks
        else toks ++ [.ffield (reduce_by_percentage st4.g1_feedrate P.max_flow)]
      pure { st4 with
        lines := st4.lines ++ [.rebuilt outToks],
        edit := st4.edit + 1,
        lastPosition := currentPosition }

/-- The SMALL_SEGMENTS rewrite for one infill extrusion line (source lines
359-384), acting on the state `st4` reached after the feedrate tracking. -/
noncomputable def smallSegHandler (P : Params) (st4 : PState) (tokens : List Tok)
    (currentPosition : Point2D) : Except PErr PState := do
  let shortestDistance := min_distance_from_segment
    ⟨st4.lastPosition, currentPosition⟩ st4.perimeterSegments
  let toks ← smallSegToks P shortestDistance tokens
  let feedrate_set := tokens.any Tok.hasF
  if feedrate_set then
    pure { st4 with
      lines := st4.lines ++ [.rebuilt toks],
      edit := st4.edit + 1,
      lastPosition := currentPosition }
  else
    -- source lines 377-380: `newF` is assigned only when the distance is
    -- inside the gradient; otherwise the Python local keeps its previous
    -- value, or is still unbound (`NameError`) if no earlier line ever
    -- assigned it
    let newF' := if shortestDistance < ↑P.gradient_thickness then
        some (st4.g1_feedrate / mapRange (0, P.gradient_thickness)
          (P.max_flow / 100, P.min_flow / 100)
          (WithTop.untop' 0 shortestDistance))
      else st4.newF
    match newF' with
    | none => .error PErr.nameErrorNewF
    | some v =>
      pure { st4 with
        lines := st4.lines ++ [.rebuilt (toks ++ [.ffield (pyround v 3)])],
        edit := st4.edit + 1,
        lastPosition := currentPosition,
        newF := newF' }

/-- One iteration of the main loop of `process_gcode_file` (source lines
247-405), for a single input line. -/
noncomputable def processLine (P : Params) (infill_type : InfillType)
    (gradientDiscretizationLength : ℝ) (st : PState) (L : GLine) : Except PErr PState :=
  -- keep track of extrusion mode (source lines 250-254)
  let res := updateExtrusionFlag st.relative_extrusion_set L.text
  -- section-marker dispatch (source lines 258-268)
  let secFr := applySectionMarker st.currentSection st.g1_feedrate L.text
  let sec := secFr.1
  let st1 : PState :=
    { st with relative_extrusion_set := res, currentSection := sec, g1_feedrate := secFr.2 }
  do
    -- perimeter collection (source lines 270-271)
    let st2 ←
      if sec = Section.INNER_WALL ∧ is_extrusion_line L.text = true then
        match L.xy with
        | none => .error PErr.xyParseError
        | some p =>
          pure { st1 with
            perimeterSegments := st1.perimeterSegments ++ [⟨p, st1.lastPosition⟩] }
      else pure st1
    if sec = Section.INFILL then
      -- extrusion-mode policy check (source lines 273-279)
      if res = false then .error PErr.relativeExtrusionAbort
      else
        -- G2/G3 detection (source lines 282-285)
        let st3 : PState :=
          if prog_g2_g3_matches L.text then
            { st2 with g2_g3_used := true,
                       g2_g3_lines := st2.g2_g3_lines ++ [pyStripStr L.text] }
          else st2
        -- feedrate tracking (source lines 287-289)
        let st4 ←
          match L.fMatch with
          | none => pure st3
          | some none => (.error PErr.feedrateFloatError : Except PErr PState)
          | some (some v) => pure { st3 with g1_feedrate := v }
        if prog_extrusion_matches L.text then
          match L.xy with
          | none => .error PErr.xyParseError
          | some currentPosition =>
            match infill_type with
            | .LINEAR =>
              linearHandler P gradientDiscretizationLength st4 L.tokens currentPosition
            | .SMALL_SEGMENTS =>
              smallSegHandler P st4 L.tokens currentPosition
        else
          -- source lines 388-396
          if prog_move_matches L.text then
            match L.xy with
            | none => .error PErr.xyParseError
            | some p =>
              pure { st4 with lastPosition := p, lines := st4.lines ++ [.raw L.text] }
          else pure { st4 with lines := st4.lines ++ [.raw L.text] }
    else
      -- source lines 398-405
      if prog_move_matches L.text then
        match L.xy with
        | none => .error PErr.xyParseError
        | some p =>
          pure { st2 with lastPosition := p, lines := st2.lines ++ [.raw L.text] }
      else pure { st2 with lines := st2.lines ++ [.raw L.text] }

/-- The main loop of `process_gcode_file` (source line 247) as a fold. -/
noncomputable def runFold (P : Params) (infill_type : InfillType)
    (gradientDiscretizationLength : ℝ) : PState → List GLine → Except PErr PState
  | st, [] => .ok st
  | st, L :: rest => do
    let st' ← processLine P infill_type gradientDiscretizationLength st L
    runFold P infill_type gradientDiscretizationLength st' rest

/-- The run statistics assembled after the loop (source lines 222, 238,
407-429). -/
structure RunStats where
  total_lines : ℕ
  modifications_made : ℕ
  relative_extrusion : Bool
  g2_g3_used : Bool
  g2_g3_lines : List String
  changes_made : Bool
  infill_type : InfillType

/-- `process_gcode_file` (source lines 203-436): the file is the list of its
lines; the rewritten content (written back to the same path at source lines
431-434 only after the whole loop has succeeded) is the first component of
the `.ok` result, so an aborted run produces no output at all. -/
noncomputable def process_gcode_file (P : Params) (file : List GLine) :
    Except PErr (List OutLine × RunStats) := do
  let infill_type := extract_infill_type (file.map GLine.text)
  let gradientDiscretizationLength := P.gradient_thickness / P.gradient_discretization
  let st ← runFold P infill_type gradientDiscretizationLength initState file
  pure (st.lines,
    { total_lines := file.length
      modifications_made := st.edit
      relative_extrusion := st.relative_extrusion
      g2_g3_used := st.g2_g3_used
      g2_g3_lines := st.g2_g3_lines
      changes_made := st.edit != 0
      infill_type := infill_type })

/-- The configuration used by the concrete scenarios: `max_flow = 250`,
`min_flow = 50`, `gradient_thickness = 6`, `gradient_discretization = 4`
(the repository defaults, and the values of the spec's Scenario A). -/
def P0 : Params := ⟨250, 50, 6, 4⟩

/-- A line on which the script performs no numeric extraction: no tokens,
no parseable coordinates, no feedrate capture. -/
def mkLine (t : String) : GLine := ⟨t, [], none, none⟩

/-- The inner-wall segment of the spec's Scenario A, as collected by the
perimeter accumulator: `Segment(getXY(line), lastPosition)` for the wall
extrusion move to `(10, 0)` from `(0, 0)`. -/
def wallSeg : Segment := ⟨⟨10, 0⟩, ⟨0, 0⟩⟩

/-- The tokens of the Scenario A infill extrusion line `G1 X10 Y5 E1`. -/
def l7toks : List Tok := [⟨"G1", none⟩, ⟨"X10", some 10⟩, ⟨"Y5", some 5⟩, ⟨"E1", some 1⟩]

/-- The Scenario A infill extrusion line itself. -/
def l7 : GLine := ⟨"G1 X10 Y5 E1\n", l7toks, some ⟨10, 5⟩, none⟩

/-- The output lines accumulated before the Scenario A infill extrusion
line is processed (all six earlier lines pass through verbatim). -/
def prevLines : List OutLine :=
  [.raw "M83\n", .raw ";TYPE:Inner wall\n", .raw "G1 X0 Y0\n", .raw "G1 X10 Y0 E1\n",
    .raw ";TYPE:Sparse infill\n", .raw "G1 X0 Y5\n"]

/-- The loop state after the first six lines of the Scenario A file. -/
def st6 : PState :=
  { lines := prevLines, edit := 0, currentSection := .INFILL, lastPosition := ⟨0, 5⟩,
    relative_extrusion := false, g2_g3_used := false, g2_g3_lines := [],
    relative_extrusion_set := true, g1_feedrate := 0, newF := none,
    perimeterSegments := [wallSeg] }

/-- The loop state after the Scenario A infill extrusion line: six whole
sub-moves of extrusion `0.125` each, then the trailing partial segment of
extrusion `0.25`. -/
noncomputable def st7 : PState :=
  { st6 with
    lines := prevLines ++ [.cmd (3/2) 5 (1/8) none, .cmd 3 5 (1/8) none,
      .cmd (9/2) 5 (1/8) none, .cmd 6 5 (1/8) none,
      .cmd (15/2) 5 (1/8) none, .cmd 9 5 (1/8) none, .cmd 10 5 (1/4) none],
    edit := 1, lastPosition := ⟨10, 5⟩ }

/-- The first six lines of the Scenario A file: relative extrusion on, one
inner-wall segment `(0,0)-(10,0)`, begin infill, move to `(0,5)`. -/
def pre6 : List GLine :=
  [mkLine "M83\n", mkLine ";TYPE:Inner wall\n",
   ⟨"G1 X0 Y0\n", [⟨"G1", none⟩, ⟨"X0", some 0⟩, ⟨"Y0", some 0⟩], some ⟨0, 0⟩, none⟩,
   ⟨"G1 X10 Y0 E1\n", [⟨"G1", none⟩, ⟨"X10", some 10⟩, ⟨"Y0", some 0⟩, ⟨"E1", some 1⟩],
     some ⟨10, 0⟩, none⟩,
   mkLine ";TYPE:Sparse infill\n",
   ⟨"G1 X0 Y5\n", [⟨"G1", none⟩, ⟨"X0", some 0⟩, ⟨"Y5", some 5⟩], some ⟨0, 5⟩, none⟩]

/-- The complete Scenario A file: LINEAR pattern (no
`sparse_infill_pattern` header), wall `(0,0)-(10,0)`, one infill extrusion
move `(0,5)-(10,5)` with `E1`. -/
noncomputable def c2file : List GLine := pre6 ++ [l7]

/-! ### Helper lemmas -/

lemma listMin_le {l : List ℝ} {x : ℝ} (hx : x ∈ l) : listMin l ≤ ↑x := by
  induction l with
  | nil => cases hx
  | cons a l ih =>
    rcases List.mem_cons.mp hx with h | h
    · subst h; exact min_le_left _ _
    · exact le_trans (min_le_right _ _) (ih h)

lemma listMin_attained {l : List ℝ} (hl : l ≠ []) : ∃ x ∈ l, listMin l = ↑x := by
  induction l with
  | nil => exact absurd rfl hl
  | cons a l ih =>
    rcases eq_or_ne l [] with h | h
    · subst h
      exact ⟨a, List.mem_singleton.mpr rfl, by simp [listMin]⟩
    · obtain ⟨x, hx, hmin⟩ := ih h
      have hcons : listMin (a :: l) = min ↑a (listMin l) := rfl
      rcases min_cases (↑a : WithTop ℝ) (listMin l) with ⟨heq, _⟩ | ⟨heq, _⟩
      · exact ⟨a, List.mem_cons_self .., by rw [hcons, heq]⟩
      · exact ⟨x, List.mem_cons_of_mem _ hx, by rw [hcons, heq, hmin]⟩

lemma isPrefixOf_trans : ∀ {p q l : List Char},
    p.isPrefixOf q = true → q.isPrefixOf l = true → p.isPrefixOf l = true
  | [], _, _, _, _ => by simp [List.isPrefixOf]
  | _ :: _, [], _, hpq, _ => by simp [List.isPrefixOf] at hpq
  | _ :: _, _ :: _, [], _, hql => by simp [List.isPrefixOf] at hql
  | a :: p, b :: q, c :: l, hpq, hql => by
    simp only [List.isPrefixOf, Bool.and_eq_true, beq_iff_eq] at hpq hql ⊢
    exact ⟨hpq.1.trans hql.1, isPrefixOf_trans hpq.2 hql.2⟩

lemma prefix_of_prefix : ∀ {p q l : List Char},
    p.isPrefixOf l = true → q.isPrefixOf l = true → p.length ≤ q.length →
    p.isPrefixOf q = true
  | [], _, _, _, _, _ => by simp [List.isPrefixOf]
  | _ :: _, _, [], hpl, _, _ => by simp [List.isPrefixOf] at hpl
  | a :: p, [], c :: l, _, _, hlen => by simp at hlen
  | a :: p, b :: q, c :: l, hpl, hql, hlen => by
    simp only [List.isPrefixOf, Bool.and_eq_true, beq_iff_eq] at hpl hql ⊢
    refine ⟨hpl.1.trans hql.1.symm, prefix_of_prefix hpl.2 hql.2 ?_⟩
    simpa using hlen

lemma prefix_incompat {l p q : List Char} (hlen : p.length ≤ q.length)
    (hnot : p.isPrefixOf q = false) (hp : p.isPrefixOf l = true)
    (hq : q.isPrefixOf l = true) : False := by
  have h := prefix_of_prefix hp hq hlen
  rw [hnot] at h
  exact Bool.noConfusion h

lemma bor_elim {a b : Bool} (h : (a || b) = true) : a = true ∨ b = true := by
  rcases a <;> rcases b <;> simp_all

/-- The section reached after a list of lines, by folding the
section-marker dispatch (the second component plays no role). -/
noncomputable def sectionAfter (sec : Section) : List GLine → Section
  | [] => sec
  | L :: rest => sectionAfter (applySectionMarker sec 0 L.text).1 rest

lemma applySectionMarker_fst_indep (cur : Section) (fr fr' : ℝ) (t : String) :
    (applySectionMarker cur fr t).1 = (applySectionMarker cur fr' t).1 := by
  unfold applySectionMarker
  split_ifs <;> rfl

lemma updateExtrusionFlag_false {t : String}
    (h : prog_relative_extrusion_matches t = false) :
    updateExtrusionFlag false t = false := by
  simp only [updateExtrusionFlag, h]
  split <;> simp_all

lemma linearHandler_ok_proj (P : Params) (gdl : ℝ) (st4 : PState) (toks : List Tok)
    (cp : Point2D) (st' : PState) (h : linearHandler P gdl st4 toks cp = .ok st') :
    st'.currentSection = st4.currentSection ∧
    st'.relative_extrusion_set = st4.relative_extrusion_set := by
  simp only [linearHandler, bind, Except.bind, pure, Except.pure] at h
  repeat' split at h
  all_goals first
    | exact Except.noConfusion h
    | (rw [Except.ok.injEq] at h; exact h ▸ ⟨rfl, rfl⟩)

lemma smallSegHandler_ok_proj (P : Params) (st4 : PState) (toks : List Tok)
    (cp : Point2D) (st' : PState) (h : smallSegHandler P st4 toks cp = .ok st') :
    st'.currentSection = st4.currentSection ∧
    st'.relative_extrusion_set = st4.relative_extrusion_set := by
  simp only [smallSegHandler, bind, Except.bind, pure, Except.pure] at h
  repeat' split at h
  all_goals first
    | exact Except.noConfusion h
    | (rw [Except.ok.injEq] at h; exact h ▸ ⟨rfl, rfl⟩)

/-- Every successful iteration of the loop leaves the section state and the
relative-extrusion flag exactly as the marker dispatch and the mode
bookkeeping of that line dictate. -/
lemma step_ok_projections (P : Params) (it : InfillType) (gdl : ℝ) (st : PState)
    (L : GLine) (st' : PState) (h : processLine P it gdl st L = .ok st') :
    st'.currentSection = (applySectionMarker st.currentSection st.g1_feedrate L.text).1 ∧
    st'.relative_extrusion_set = updateExtrusionFlag st.relative_extrusion_set L.text := by
  simp only [processLine, bind, Except.bind, pure, Except.pure] at h
  repeat' split at h
  all_goals first
    | exact Except.noConfusion h
    | (rw [Except.ok.injEq] at h; exact h ▸ ⟨rfl, rfl⟩)
    | (obtain ⟨h1, h2⟩ := linearHandler_ok_proj _ _ _ _ _ _ h
       exact ⟨h1.trans rfl, h2.trans rfl⟩)
    | (obtain ⟨h1, h2⟩ := smallSegHandler_ok_proj _ _ _ _ _ h
       exact ⟨h1.trans rfl, h2.trans rfl⟩)

/-- If a line's marker dispatch lands in (or keeps) the infill section while
the relative-extrusion flag is off after that line's mode bookkeeping, the
iteration stops with the fatal relative-extrusion error (source lines
273-279). -/
lemma step_abort (P : Params) (it : InfillType) (gdl : ℝ) (st : PState) (L : GLine)
    (hsec : (applySectionMarker st.currentSection st.g1_feedrate L.text).1 = Section.INFILL)
    (hflag : updateExtrusionFlag st.relative_extrusion_set L.text = false) :
    processLine P it gdl st L = .error .relativeExtrusionAbort := by
  simp [processLine, hsec, hflag]

/-- If, somewhere in the remaining input, the section tracker reaches the
infill section with no `M83` seen anywhere up to that point and the flag
currently off, the fold aborts. -/
lemma runFold_abort (P : Params) (it : InfillType) (gdl : ℝ) :
    ∀ (pre : List GLine) (L : GLine) (post : List GLine) (st : PState),
    st.relative_extrusion_set = false →
    (∀ L' ∈ pre ++ [L], prog_relative_extrusion_matches L'.text = false) →
    sectionAfter st.currentSection (pre ++ [L]) = Section.INFILL →
    ∃ e, runFold P it gdl st (pre ++ L :: post) = .error e := by
  intro pre
  induction pre with
  | nil =>
    intro L post st hflag hnoM83 hsec
    refine ⟨.relativeExtrusionAbort, ?_⟩
    have hsec' : (applySectionMarker st.currentSection st.g1_feedrate L.text).1 =
        Section.INFILL := by
      rw [applySectionMarker_fst_indep st.currentSection st.g1_feedrate 0]
      exact hsec
    have hflag' : updateExtrusionFlag st.relative_extrusion_set L.text = false := by
      rw [hflag]
      exact updateExtrusionFlag_false (hnoM83 L (by simp))
    have hstep := step_abort P it gdl st L hsec' hflag'
    simp [runFold, hstep, bind, Except.bind]
  | cons L0 pre ih =>
    intro L post st hflag hnoM83 hsec
    cases hstep : processLine P it gdl st L0 with
    | error e =>
      exact ⟨e, by simp [runFold, hstep, bind, Except.bind]⟩
    | ok st1 =>
      obtain ⟨hsec1, hflag1⟩ := step_ok_projections P it gdl st L0 st1 hstep
      have hflag1' : st1.relative_extrusion_set = false := by
        rw [hflag1, hflag]
        exact updateExtrusionFlag_false (hnoM83 L0 (by simp))
      have hsec1' : sectionAfter st1.currentSection (pre ++ [L]) = Section.INFILL := by
        rw [hsec1, applySectionMarker_fst_indep st.currentSection st.g1_feedrate 0]
        exact hsec
      obtain ⟨e, he⟩ := ih L post st1 hflag1'
        (fun L' hL' => hnoM83 L' (List.mem_cons_of_mem _ hL')) hsec1'
      exact ⟨e, by simp [runFold, hstep, bind, Except.bind, he]⟩

lemma pyround_exact {x : ℝ} {n : ℕ} {m : ℤ} (h : x * 10 ^ n = (m : ℝ)) : pyround x n = x := by
  rw [pyround, h, round_intCast, eq_comm, eq_div_iff (by positivity)]
  exact h

lemma dist_wall (mx : ℝ) (h0 : 0 ≤ mx) (h1 : mx ≤ 10) :
    dist wallSeg ⟨mx, 5⟩ = 5 := by
  simp only [wallSeg, dist]
  norm_num
  have hu : -((mx - 10) * 10) / 100 ⊓ 1 ⊔ 0 = -((mx - 10) * 10) / 100 := by
    rw [min_eq_left (by nlinarith), max_eq_left (by nlinarith)]
  rw [hu]
  have hx : 10 + -(-((mx - 10) * 10) / 100 * 10) - mx = 0 := by ring
  rw [hx]
  norm_num
  rw [show (25 : ℝ) = 5 ^ 2 by norm_num, Real.sqrt_sq (by norm_num)]

lemma sd_wall (c : ℝ) (h0 : 0 ≤ c) (h1 : c ≤ 17/2) :
    min_distance_from_segment ⟨⟨c, 5⟩, ⟨c + 3/2, 5 + 0⟩⟩ [wallSeg] = ((5 : ℝ) : WithTop ℝ) := by
  have h1 : min_distance_from_segment ⟨⟨c, 5⟩, ⟨c + 3/2, 5 + 0⟩⟩ [wallSeg] =
      min ↑(dist wallSeg ⟨(c + (c + 3/2)) / 2, (5 + (5 + 0)) / 2⟩) ⊤ := rfl
  rw [h1, min_eq_left le_top]
  norm_num
  rw [dist_wall _ (by nlinarith) (by nlinarith)]

lemma linearLoop_step (c : ℝ) (h0 : 0 ≤ c) (h1 : c ≤ 17/2) (n : ℕ) (acc : List OutLine) :
    linearLoop P0 [wallSeg] ⟨3/2, 0⟩ (3/20) 0 (n + 1) ⟨c, 5⟩ acc =
      linearLoop P0 [wallSeg] ⟨3/2, 0⟩ (3/20) 0 n ⟨c + 3/2, 5 + 0⟩
        (acc ++ [.cmd (pyround (c + 3/2) 3) 5 (1/8) none]) := by
  rw [linearLoop]
  rw [show (⟨(⟨c, 5⟩ : Point2D).x + (⟨3/2, 0⟩ : Point2D).x,
      (⟨c, 5⟩ : Point2D).y + (⟨3/2, 0⟩ : Point2D).y⟩ : Point2D) = ⟨c + 3/2, 5 + 0⟩ from rfl]
  rw [sd_wall c h0 h1]
  have hmin : min ((5 : ℝ) : WithTop ℝ) ↑P0.gradient_thickness = ((5 : ℝ) : WithTop ℝ) := by
    rw [show P0.gradient_thickness = (6 : ℝ) from rfl, ← WithTop.coe_min]
    norm_num
  rw [hmin, WithTop.untop'_coe]
  have hratio : mapRange (0, P0.gradient_thickness) (P0.max_flow / 100, P0.min_flow / 100) 5
      = 5 / 6 := by
    rw [show P0.gradient_thickness = (6 : ℝ) from rfl,
      show P0.max_flow = (250 : ℝ) from rfl, show P0.min_flow = (50 : ℝ) from rfl]
    norm_num [mapRange]
  rw [hratio]
  have hfeed : reduce_by_percentage 0 (5 / 6 * 100) = 0 := by
    simp [reduce_by_percentage]
  rw [hfeed]
  have hcmd : get_extrusion_command (c + 3/2) (5 + 0) (3/20 * (5/6)) 0 =
      .cmd (pyround (c + 3/2) 3) 5 (1/8) none := by
    rw [get_extrusion_command, if_neg (by norm_num)]
    rw [show (5 : ℝ) + 0 = 5 by norm_num, show (3 : ℝ)/20 * (5/6) = 1/8 by norm_num]
    rw [show pyround 5 3 = (5 : ℝ) from pyround_exact (m := 5000) (by norm_num),
      show pyround (1/8) 5 = (1/8 : ℝ) from pyround_exact (m := 12500) (by norm_num)]
  rw [hcmd]

lemma loop6 (acc : List OutLine) :
    linearLoop P0 [wallSeg] ⟨3/2, 0⟩ (3/20) 0 6 ⟨0, 5⟩ acc =
      (⟨9, 5⟩, acc ++ [.cmd (3/2) 5 (1/8) none, .cmd 3 5 (1/8) none,
        .cmd (9/2) 5 (1/8) none, .cmd 6 5 (1/8) none,
        .cmd (15/2) 5 (1/8) none, .cmd 9 5 (1/8) none]) := by
  rw [linearLoop_step 0 (by norm_num) (by norm_num) 5 acc]
  rw [show (0 : ℝ) + 3/2 = 3/2 by norm_num]
  rw [show pyround (3/2) 3 = (3/2 : ℝ) from pyround_exact (m := 1500) (by norm_num)]
  rw [show (⟨3/2, 5 + 0⟩ : Point2D) = ⟨3/2, 5⟩ by norm_num]
  rw [linearLoop_step (3/2) (by norm_num) (by norm_num) 4 _]
  rw [show (3 : ℝ)/2 + 3/2 = 3 by norm_num]
  rw [show pyround (3 : ℝ) 3 = (3 : ℝ) from pyround_exact (m := 3000) (by norm_num)]
  rw [show (⟨3, 5 + 0⟩ : Point2D) = ⟨3, 5⟩ by norm_num]
  rw [linearLoop_step 3 (by norm_num) (by norm_num) 3 _]
  rw [show (3 : ℝ) + 3/2 = 9/2 by norm_num]
  rw [show pyround (9/2) 3 = (9/2 : ℝ) from pyround_exact (m := 4500) (by norm_num)]
  rw [show (⟨9/2, 5 + 0⟩ : Point2D) = ⟨9/2, 5⟩ by norm_num]
  rw [linearLoop_step (9/2) (by norm_num) (by norm_num) 2 _]
  rw [show (9 : ℝ)/2 + 3/2 = 6 by norm_num]
  rw [show pyround (6 : ℝ) 3 = (6 : ℝ) from pyround_exact (m := 6000) (by norm_num)]
  rw [show (⟨6, 5 + 0⟩ : Point2D) = ⟨6, 5⟩ by norm_num]
  rw [linearLoop_step 6 (by norm_num) (by norm_num) 1 _]
  rw [show (6 : ℝ) + 3/2 = 15/2 by norm_num]
  rw [show pyround (15/2) 3 = (15/2 : ℝ) from pyround_exact (m := 7500) (by norm_num)]
  rw [show (⟨15/2, 5 + 0⟩ : Point2D) = ⟨15/2, 5⟩ by norm_num]
  rw [linearLoop_step (15/2) (by norm_num) (by norm_num) 0 _]
  rw [show (15 : ℝ)/2 + 3/2 = 9 by norm_num]
  rw [show pyround (9 : ℝ) 3 = (9 : ℝ) from pyround_exact (m := 9000) (by norm_num)]
  rw [show (⟨9, 5 + 0⟩ : Point2D) = ⟨9, 5⟩ by norm_num]
  simp [linearLoop, List.append_assoc]

lemma gpd_horizontal : get_points_distance ⟨0, 5⟩ ⟨10, 5⟩ = 10 := by
  rw [get_points_distance]
  norm_num
  rw [show (100 : ℝ) = 10 ^ 2 by norm_num, Real.sqrt_sq (by norm_num)]

lemma gpd_tail : get_points_distance ⟨9, 5⟩ ⟨10, 5⟩ = 1 := by
  rw [get_points_distance]
  norm_num

lemma handler_l7 :
    linearHandler P0 (P0.gradient_thickness / P0.gradient_discretization) st6 l7toks ⟨10, 5⟩ =
      .ok { st6 with
        lines := prevLines ++ [.cmd (3/2) 5 (1/8) none, .cmd 3 5 (1/8) none,
          .cmd (9/2) 5 (1/8) none, .cmd 6 5 (1/8) none,
          .cmd (15/2) 5 (1/8) none, .cmd 9 5 (1/8) none, .cmd 10 5 (1/4) none],
        edit := 1, lastPosition := ⟨10, 5⟩ } := by
  have hfind : findExtrusionLength l7toks none = .ok (some 1) := rfl
  simp only [linearHandler, bind, Except.bind, pure, Except.pure, hfind]
  rw [show st6.lastPosition = (⟨0, 5⟩ : Point2D) from rfl,
    show st6.perimeterSegments = [wallSeg] from rfl,
    show st6.g1_feedrate = (0 : ℝ) from rfl,
    show st6.lines = prevLines from rfl,
    show P0.gradient_thickness = (6 : ℝ) from rfl,
    show P0.gradient_discretization = (4 : ℝ) from rfl,
    gpd_horizontal]
  norm_num
  refine ⟨?_, rfl⟩
  rw [show Int.toNat 6 = 6 from rfl, loop6 prevLines]
  norm_num
  rw [gpd_tail, show P0.max_flow = (250 : ℝ) from rfl]
  rw [show reduce_by_percentage 0 250 = 0 by simp [reduce_by_percentage]]
  rw [show (1 : ℝ) / 10 * 250 / 100 = 1/4 by norm_num]
  rw [get_extrusion_command, if_neg (show ¬((0 : ℝ) > 0) by norm_num)]
  rw [show pyround (10 : ℝ) 3 = 10 from pyround_exact (m := 10000) (by norm_num),
    show pyround (5 : ℝ) 3 = 5 from pyround_exact (m := 5000) (by norm_num),
    show pyround (1/4 : ℝ) 5 = 1/4 from pyround_exact (m := 25000) (by norm_num)]

lemma step_l7 :
    processLine P0 .LINEAR (P0.gradient_thickness / P0.gradient_discretization) st6 l7 =
      .ok st7 := by
  simp only [processLine, bind, Except.bind, pure, Except.pure]
  rw [show l7.text = "G1 X10 Y5 E1\n" from rfl, show l7.tokens = l7toks from rfl,
    show l7.xy = some ⟨10, 5⟩ from rfl, show l7.fMatch = (none : Option (Option ℝ)) from rfl]
  rw [show updateExtrusionFlag st6.relative_extrusion_set "G1 X10 Y5 E1\n" = true from rfl]
  rw [show applySectionMarker st6.currentSection st6.g1_feedrate "G1 X10 Y5 E1\n" =
    (Section.INFILL, st6.g1_feedrate) from rfl]
  simp only [show prog_g2_g3_matches "G1 X10 Y5 E1\n" = false from rfl,
    show prog_extrusion_matches "G1 X10 Y5 E1\n" = true from rfl,
    show is_extrusion_line "G1 X10 Y5 E1\n" = true from rfl]
  norm_num
  rw [show ({ st6 with relative_extrusion_set := true, currentSection := Section.INFILL, g1_feedrate := st6.g1_feedrate } : PState) = st6 from rfl]
  rw [handler_l7]
  rfl

lemma runFold_append (P : Params) (it : InfillType) (g : ℝ) :
    ∀ (xs ys : List GLine) (st : PState),
    runFold P it g st (xs ++ ys) =
      (runFold P it g st xs) >>= fun s => runFold P it g s ys := by
  intro xs
  induction xs with
  | nil => intro ys st; simp [runFold, bind, Except.bind]
  | cons x xs ih =>
    intro ys st
    simp only [List.cons_append, runFold, bind, Except.bind]
    cases processLine P it g st x with
    | error e => rfl
    | ok s1 => exact ih ys s1

lemma run_pre6 :
    runFold P0 .LINEAR (P0.gradient_thickness / P0.gradient_discretization) initState pre6 =
      .ok st6 := rfl

lemma run_c2 :
    process_gcode_file P0 c2file =
      .ok (st7.lines,
        { total_lines := 7, modifications_made := 1, relative_extrusion := false,
          g2_g3_used := false, g2_g3_lines := [], changes_made := true,
          infill_type := .LINEAR }) := by
  have hrun : runFold P0 .LINEAR (P0.gradient_thickness / P0.gradient_discretization)
      initState c2file = .ok st7 := by
    rw [c2file, runFold_append, run_pre6]
    simp only [bind, Except.bind, runFold, step_l7]
  have hext : extract_infill_type (c2file.map GLine.text) = .LINEAR := rfl
  simp [process_gcode_file, hext, hrun, bind, Except.bind, st7, st6]
  rfl

/-! ### Claim theorems -/

/-- **C6.** For every point `P` and every degenerate segment whose two
endpoints are equal (zero direction vector), `dist` (the source's
`distancePointToSegment`) returns `0`.  The function is a total Lean
function on all segment/point inputs, so it never raises; the Python
`ZeroDivisionError` on the degenerate case is caught by the source's
`try/except` and modelled by the `norm = 0` branch taken here. -/
theorem dist_degenerate_eq_zero : ∀ (p q : Point2D), dist ⟨p, p⟩ q = 0 := by
  intro p q
  simp [dist]

/-- **C8.** `mapRange` is the affine remap: it is the identity on the unit
interval mapped to itself, and on a zero-width input domain `(a, a)` it
returns the lower output bound `b1` (the zero-width guard avoiding the
division by zero). -/
theorem mapRange_affine :
    (∀ x : ℝ, mapRange (0, 1) (0, 1) x = x) ∧
    (∀ (a b1 b2 x : ℝ), mapRange (a, a) (b1, b2) x = b1) := by
  constructor
  · intro x
    norm_num [mapRange]
  · intro a b1 b2 x
    simp [mapRange]

/-- **C9.** For every probe segment, `min_distance_from_segment` (the
spec's `nearestDistance`) returns the minimum over all perimeter segments
of the distance from the probe's midpoint to that segment — an attained
lower bound — and returns `⊤` (the model of `float('inf')`) whenever the
perimeter set is empty. -/
theorem min_distance_from_segment_spec :
    ∀ (probe : Segment) (perims : List Segment),
    (perims = [] → min_distance_from_segment probe perims = ⊤) ∧
    (perims ≠ [] →
      ∃ s ∈ perims, min_distance_from_segment probe perims =
        ↑(dist s ⟨(probe.point1.x + probe.point2.x) / 2,
                  (probe.point1.y + probe.point2.y) / 2⟩) ∧
      ∀ t ∈ perims, min_distance_from_segment probe perims ≤
        ↑(dist t ⟨(probe.point1.x + probe.point2.x) / 2,
                  (probe.point1.y + probe.point2.y) / 2⟩)) := by
  intro probe perims
  constructor
  · intro h
    subst h
    rfl
  · intro h
    match hp : perims with
    | [] => exact absurd rfl h
    | s0 :: rest =>
      have hne : (s0 :: rest).map
          (fun s => dist s ⟨(probe.point1.x + probe.point2.x) / 2,
            (probe.point1.y + probe.point2.y) / 2⟩) ≠ [] := by simp
      obtain ⟨x, hx, hmin⟩ := listMin_attained hne
      obtain ⟨s, hs, hsx⟩ := List.mem_map.mp hx
      refine ⟨s, hs, ?_, ?_⟩
      · rw [show min_distance_from_segment probe (s0 :: rest) =
          listMin ((s0 :: rest).map
            (fun s => dist s ⟨(probe.point1.x + probe.point2.x) / 2,
              (probe.point1.y + probe.point2.y) / 2⟩)) from rfl, hmin, hsx]
      · intro t ht
        exact listMin_le (List.mem_map.mpr ⟨t, ht, rfl⟩)

/-- Witness for C9 at a concrete probe and a one-element perimeter set. -/
theorem min_distance_from_segment_spec_witness :
    ∃ s ∈ [(⟨⟨0, 0⟩, ⟨0, 0⟩⟩ : Segment)],
      min_distance_from_segment ⟨⟨0, 0⟩, ⟨0, 0⟩⟩ [⟨⟨0, 0⟩, ⟨0, 0⟩⟩] =
        ↑(dist s ⟨((0 : ℝ) + 0) / 2, ((0 : ℝ) + 0) / 2⟩) ∧
      ∀ t ∈ [(⟨⟨0, 0⟩, ⟨0, 0⟩⟩ : Segment)],
        min_distance_from_segment ⟨⟨0, 0⟩, ⟨0, 0⟩⟩ [⟨⟨0, 0⟩, ⟨0, 0⟩⟩] ≤
          ↑(dist t ⟨((0 : ℝ) + 0) / 2, ((0 : ℝ) + 0) / 2⟩) :=
  (min_distance_from_segment_spec ⟨⟨0, 0⟩, ⟨0, 0⟩⟩ [⟨⟨0, 0⟩, ⟨0, 0⟩⟩]).2 (by simp)

lemma clamp_min_quad {px py ax ay u : ℝ} (hn : 0 < px * px + py * py)
    (hu : u * (px * px + py * py) = ax * px + ay * py) :
    ((max (min u 1) 0 * px - ax) * (max (min u 1) 0 * px - ax) +
      (max (min u 1) 0 * py - ay) * (max (min u 1) 0 * py - ay) ≤ ax * ax + ay * ay) ∧
    ((max (min u 1) 0 * px - ax) * (max (min u 1) 0 * px - ax) +
      (max (min u 1) 0 * py - ay) * (max (min u 1) 0 * py - ay)
        ≤ (px - ax) * (px - ax) + (py - ay) * (py - ay)) := by
  rcases le_or_lt u 0 with hu0 | hu0
  · have hu' : max (min u 1) 0 = 0 := max_eq_right (le_trans (min_le_left _ _) hu0)
    rw [hu']
    have hS : ax * px + ay * py ≤ 0 := by
      nlinarith [mul_nonpos_of_nonpos_of_nonneg hu0 hn.le]
    exact ⟨by nlinarith, by nlinarith⟩
  · rcases le_or_lt 1 u with hu1 | hu1
    · have hu' : max (min u 1) 0 = 1 := by
        rw [min_eq_right hu1]
        exact max_eq_left zero_le_one
      rw [hu']
      have hS : px * px + py * py ≤ ax * px + ay * py := by nlinarith
      exact ⟨by nlinarith, by nlinarith⟩
    · have hu' : max (min u 1) 0 = u := by
        rw [min_eq_left hu1.le]
        exact max_eq_left hu0.le
      rw [hu']
      constructor
      · nlinarith [mul_nonneg (mul_nonneg hu0.le hu0.le) hn.le]
      · nlinarith [mul_nonneg (mul_nonneg (sub_nonneg.mpr hu1.le) (sub_nonneg.mpr hu1.le)) hn.le]

/-- **C7.** For every segment `S` and every point `P`, the finite-segment
distance `dist S P` (the spec's `distancePointToSegment`) never exceeds the
distance from `P` to either endpoint of `S` (`get_points_distance`, the
spec's `distancePointToPoint`). -/
theorem dist_le_endpoint_distances (s : Segment) (p : Point2D) :
    dist s p ≤ get_points_distance s.point1 p ∧ dist s p ≤ get_points_distance s.point2 p := by
  obtain ⟨⟨a1, a2⟩, ⟨b1, b2⟩⟩ := s
  obtain ⟨p1, p2⟩ := p
  simp only [dist, get_points_distance]
  by_cases hn : (b1 - a1) * (b1 - a1) + (b2 - a2) * (b2 - a2) = 0
  · rw [if_pos hn]
    exact ⟨Real.sqrt_nonneg _, Real.sqrt_nonneg _⟩
  · rw [if_neg hn]
    have hpos : 0 < (b1 - a1) * (b1 - a1) + (b2 - a2) * (b2 - a2) :=
      lt_of_le_of_ne (by nlinarith [mul_self_nonneg (b1 - a1), mul_self_nonneg (b2 - a2)])
        (Ne.symm hn)
    set u : ℝ := ((p1 - a1) * (b1 - a1) + (p2 - a2) * (b2 - a2)) /
      ((b1 - a1) * (b1 - a1) + (b2 - a2) * (b2 - a2)) with hu_def
    have hu : u * ((b1 - a1) * (b1 - a1) + (b2 - a2) * (b2 - a2)) =
        (p1 - a1) * (b1 - a1) + (p2 - a2) * (b2 - a2) := div_mul_cancel₀ _ hn
    have key := @clamp_min_quad (b1 - a1) (b2 - a2) (p1 - a1) (p2 - a2) _ hpos hu
    constructor
    · apply Real.sqrt_le_sqrt
      refine le_trans (le_of_eq ?_) (le_trans key.1 (le_of_eq ?_)) <;> ring
    · apply Real.sqrt_le_sqrt
      refine le_trans (le_of_eq ?_) (le_trans key.2 (le_of_eq ?_)) <;> ring

/-- **C4.** The section tracker starts in `NOTHING` (the spec's `None`);
its state changes only on lines recognized as section markers (`^;TYPE:`):
a begin-inner-wall marker goes to `INNER_WALL`, an end-inner-wall marker
(outer wall / solid infill / skin) goes to `NOTHING`, a begin-infill marker
goes to `INFILL` and resets the current-feedrate memory to its initial
value `0`, any other section marker goes to `NOTHING`, and every line that
is not a section marker leaves the section state (and the feedrate memory)
unchanged. -/
theorem section_tracker_transitions :
    initState.currentSection = Section.NOTHING ∧ initState.g1_feedrate = 0 ∧
    (∀ (cur : Section) (fr : ℝ) (line : String),
      is_begin_inner_wall_line line = true →
        applySectionMarker cur fr line = (Section.INNER_WALL, fr)) ∧
    (∀ (cur : Section) (fr : ℝ) (line : String),
      is_end_inner_wall_line line = true →
        applySectionMarker cur fr line = (Section.NOTHING, fr)) ∧
    (∀ (cur : Section) (fr : ℝ) (line : String),
      is_begin_infill_segment_line line = true →
        applySectionMarker cur fr line = (Section.INFILL, 0)) ∧
    (∀ (cur : Section) (fr : ℝ) (line : String),
      prog_type_matches line = true → is_begin_inner_wall_line line = false →
      is_end_inner_wall_line line = false → is_begin_infill_segment_line line = false →
        applySectionMarker cur fr line = (Section.NOTHING, fr)) ∧
    (∀ (cur : Section) (fr : ℝ) (line : String),
      prog_type_matches line = false →
        applySectionMarker cur fr line = (cur, fr)) := by
  refine ⟨rfl, rfl, ?_, ?_, ?_, ?_, ?_⟩
  · intro cur fr line h
    have htype : prog_type_matches line = true := isPrefixOf_trans (by decide) h
    simp [applySectionMarker, htype, h]
  · intro cur fr line h
    rcases bor_elim h with h12 | h3
    · rcases bor_elim h12 with h1 | h2
      · have htype : prog_type_matches line = true := isPrefixOf_trans (by decide) h1
        have hni : is_begin_inner_wall_line line = false := by
          cases hb : is_begin_inner_wall_line line
          · rfl
          · exact (prefix_incompat (p := ";TYPE:Inner wall".data)
              (q := ";TYPE:Outer wall".data) (by decide) (by decide) hb h1).elim
        simp [applySectionMarker, htype, hni, h]
      · have htype : prog_type_matches line = true := isPrefixOf_trans (by decide) h2
        have hni : is_begin_inner_wall_line line = false := by
          cases hb : is_begin_inner_wall_line line
          · rfl
          · exact (prefix_incompat (p := ";TYPE:Inner wall".data)
              (q := ";TYPE:Solid infill".data) (by decide) (by decide) hb h2).elim
        simp [applySectionMarker, htype, hni, h]
    · have htype : prog_type_matches line = true := isPrefixOf_trans (by decide) h3
      have hni : is_begin_inner_wall_line line = false := by
        cases hb : is_begin_inner_wall_line line
        · rfl
        · exact (prefix_incompat (p := ";TYPE:Skin".data)
            (q := ";TYPE:Inner wall".data) (by decide) (by decide) h3 hb).elim
      simp [applySectionMarker, htype, hni, h]
  · intro cur fr line h
    rcases bor_elim h with h1 | h2
    · have htype : prog_type_matches line = true := isPrefixOf_trans (by decide) h1
      have hni : is_begin_inner_wall_line line = false := by
        cases hb : is_begin_inner_wall_line line
        · rfl
        · exact (prefix_incompat (p := ";TYPE:Inner wall".data)
            (q := ";TYPE:Sparse infill".data) (by decide) (by decide) hb h1).elim
      have hne : is_end_inner_wall_line line = false := by
        cases hb : is_end_inner_wall_line line
        · rfl
        · rcases bor_elim hb with hb12 | hb3
          · rcases bor_elim hb12 with hb1 | hb2
            · exact (prefix_incompat (p := ";TYPE:Outer wall".data)
                (q := ";TYPE:Sparse infill".data) (by decide) (by decide) hb1 h1).elim
            · exact (prefix_incompat (p := ";TYPE:Solid infill".data)
                (q := ";TYPE:Sparse infill".data) (by decide) (by decide) hb2 h1).elim
          · exact (prefix_incompat (p := ";TYPE:Skin".data)
              (q := ";TYPE:Sparse infill".data) (by decide) (by decide) hb3 h1).elim
      simp [applySectionMarker, htype, hni, hne, h]
    · have htype : prog_type_matches line = true := isPrefixOf_trans (by decide) h2
      have hni : is_begin_inner_wall_line line = false := by
        cases hb : is_begin_inner_wall_line line
        · rfl
        · exact (prefix_incompat (p := ";TYPE:Infill".data)
            (q := ";TYPE:Inner wall".data) (by decide) (by decide) h2 hb).elim
      have hne : is_end_inner_wall_line line = false := by
        cases hb : is_end_inner_wall_line line
        · rfl
        · rcases bor_elim hb with hb12 | hb3
          · rcases bor_elim hb12 with hb1 | hb2
            · exact (prefix_incompat (p := ";TYPE:Infill".data)
                (q := ";TYPE:Outer wall".data) (by decide) (by decide) h2 hb1).elim
            · exact (prefix_incompat (p := ";TYPE:Infill".data)
                (q := ";TYPE:Solid infill".data) (by decide) (by decide) h2 hb2).elim
          · exact (prefix_incompat (p := ";TYPE:Skin".data)
              (q := ";TYPE:Infill".data) (by decide) (by decide) hb3 h2).elim
      simp [applySectionMarker, htype, hni, hne, h]
  · intro cur fr line htype hni hne hnf
    simp [applySectionMarker, htype, hni, hne, hnf]
  · intro cur fr line htype
    simp [applySectionMarker, htype]

/-- **C1.** If processing reaches the infill region (the section tracker is
in `INFILL` after some line) while relative-extrusion mode has never been
switched on (no `M83` anywhere up to and including that line), the run
stops with a fatal error.  No output exists in that case — the script
writes the rewritten content back to disk only after the whole loop has
completed (source lines 431-434), which the model renders by producing the
output line list exclusively in the `.ok` result — so the input file on
disk is left exactly as it was. -/
theorem infill_without_relative_extrusion_aborts_run
    (P : Params) (file : List GLine) (pre : List GLine) (L : GLine) (post : List GLine)
    (hfile : file = pre ++ L :: post)
    (hnoM83 : ∀ L' ∈ pre ++ [L], prog_relative_extrusion_matches L'.text = false)
    (hsec : sectionAfter Section.NOTHING (pre ++ [L]) = Section.INFILL) :
    ∃ e, process_gcode_file P file = .error e := by
  subst hfile
  obtain ⟨e, he⟩ := runFold_abort P
    (extract_infill_type ((pre ++ L :: post).map GLine.text))
    (P.gradient_thickness / P.gradient_discretization) pre L post initState rfl hnoM83 hsec
  refine ⟨e, ?_⟩
  simp only [List.map_append, List.map_cons] at he
  simp [process_gcode_file, he, bind, Except.bind]

/-- Witness for C1: a file consisting of a single begin-infill marker and
no `M83` aborts. -/
theorem infill_without_relative_extrusion_aborts_run_witness :
    ∃ e, process_gcode_file P0 [mkLine ";TYPE:Sparse infill\n"] = .error e :=
  infill_without_relative_extrusion_aborts_run P0 _ [] (mkLine ";TYPE:Sparse infill\n") []
    rfl (by intro L' hL'; simp at hL'; subst hL'; rfl) rfl

/-- **C10.** The fatal relative-extrusion check fires on every line
processed while the section state is `INFILL` — the begin-infill marker
line itself and non-extrusion lines included — whenever the flag is off
after that line's own mode bookkeeping; and concretely, a file whose infill
marker follows an `M83` and then an `M82` (which clears the flag) aborts
with the same error even though the infill section contains no extrusion
line at all. -/
theorem infill_abort_checked_on_every_line :
    (∀ (P : Params) (it : InfillType) (gdl : ℝ) (st : PState) (L : GLine),
      (applySectionMarker st.currentSection st.g1_feedrate L.text).1 = Section.INFILL →
      updateExtrusionFlag st.relative_extrusion_set L.text = false →
      processLine P it gdl st L = .error .relativeExtrusionAbort) ∧
    process_gcode_file P0
      [mkLine "M83\n", mkLine "M82\n", mkLine ";TYPE:Sparse infill\n"] =
      .error .relativeExtrusionAbort :=
  ⟨fun P it gdl st L hsec hflag => step_abort P it gdl st L hsec hflag, rfl⟩

/-- Witness for C10: the begin-infill marker line itself — not an extrusion
line — triggers the fatal check from the initial state. -/
theorem infill_abort_checked_on_every_line_witness :
    processLine P0 .LINEAR (6 / 4) initState (mkLine ";TYPE:Infill\n") =
      .error .relativeExtrusionAbort :=
  infill_abort_checked_on_every_line.1 P0 .LINEAR (6 / 4) initState
    (mkLine ";TYPE:Infill\n") rfl rfl

/-- **C5 (code bug).** The claim says the run statistics'
relative-extrusion flag is true iff an `M83` was observed.  In the code the
reported flag is the variable `relative_extrusion`, initialised `False` at
source line 226 and never assigned again (the loop at source lines 250-254
tracks the mode in the separate variable `relative_extrusion_set`), so the
statistic is `False` on every completed run: here a run whose only line is
an `M83` command completes and still reports `relative_extrusion = false`,
even though the line matches `^M83`. -/
theorem relative_extrusion_stat_dead :
    process_gcode_file P0 [mkLine "M83\n"] =
      .ok ([.raw "M83\n"],
        { total_lines := 1, modifications_made := 0, relative_extrusion := false,
          g2_g3_used := false, g2_g3_lines := [], changes_made := false,
          infill_type := .LINEAR }) ∧
    prog_relative_extrusion_matches "M83\n" = true :=
  ⟨rfl, rfl⟩

/-- **C3 (code bug).** The claim says that under the SmallSegments policy
every infill extrusion line without a feedrate field gets a feedrate field
`currentFeedrate / m` appended, *including* lines with
`dist ≥ gradientThickness` (where `m = minFlow/100`).  In the code (source
lines 377-380) the append `outPutLine += f"F{round(newF, 3)}"` indeed runs
whenever the source line carries no feedrate field, but the Python local
`newF` is assigned only under `shortestDistance < gradient_thickness`, so
on the first such far-from-wall line `newF` is unbound and the run dies
with a `NameError` instead of emitting the line: here a gyroid
(SMALL_SEGMENTS) file whose single infill extrusion line `G1 X1 Y1 E2` has
no `F` field and an empty perimeter set (distance `+inf ≥ 6`) aborts. -/
theorem small_segments_feedrate_name_error :
    process_gcode_file P0
      [mkLine "; sparse_infill_pattern = gyroid\n", mkLine "M83\n",
        mkLine ";TYPE:Sparse infill\n",
        ⟨"G1 X1 Y1 E2\n",
          [⟨"G1", none⟩, ⟨"X1", some 1⟩, ⟨"Y1", some 1⟩, ⟨"E2", some 2⟩],
          some ⟨1, 1⟩, none⟩] =
      .error .nameErrorNewF := rfl

/-- Witness for C4: the begin-infill marker, from the inner-wall state
with a nonzero remembered feedrate, moves to `INFILL` and resets the
feedrate memory to `0`. -/
theorem section_tracker_transitions_witness :
    applySectionMarker Section.INNER_WALL 1200 ";TYPE:Sparse infill\n" =
      (Section.INFILL, 0) :=
  section_tracker_transitions.2.2.2.2.1 Section.INNER_WALL 1200
    ";TYPE:Sparse infill\n" (by decide)

/-- **C2 counterexample.** On the spec's Scenario A file (inner wall
`(0,0)-(10,0)`, infill move `(0,5)-(10,5)` with `E=1`, thickness 6,
discretization 4, flows 250/50), the claim predicts exactly 4 whole
sub-moves plus one trailing segment (5 emitted command lines).  The code
emits `int(steps)` whole sub-moves with
`steps = d / (gradientThickness / gradientDiscretization) = 10 / 1.5 ≈ 6.67`,
i.e. 6 whole sub-moves plus the trailing one — 7 command lines, not 5. -/
theorem linear_scenario_counterexample :
    process_gcode_file P0 c2file =
      .ok (st7.lines,
        { total_lines := 7, modifications_made := 1, relative_extrusion := false,
          g2_g3_used := false, g2_g3_lines := [], changes_made := true,
          infill_type := .LINEAR }) ∧
    st7.lines.countP (fun l => match l with | .cmd _ _ _ _ => true | _ => false) = 7 ∧
    (7 : ℕ) ≠ 4 + 1 := by
  refine ⟨run_c2, ?_, by norm_num⟩
  rfl

/-- **C2 amended.** Scenario A actually produces exactly **6** whole
sub-moves (`int(10 / (6/4)) = 6`), at `x = 1.5, 3, 4.5, 6, 7.5, 9`, each
with extrusion `0.125` — closer to the minFlow-scaled per-segment value
`(E/steps)·(50/100) = 0.075` than to the maxFlow-scaled `0.375`, since the
whole move lies 5 mm (< 6 mm) from the wall — followed by exactly one
trailing partial-distance segment to `(10,5)` scaled at maxFlow:
`0.25 = (1/10)·E·(250/100)`. -/
theorem linear_scenario_amended :
    process_gcode_file P0 c2file =
      .ok (prevLines ++
        [.cmd (3/2) 5 (1/8) none, .cmd 3 5 (1/8) none, .cmd (9/2) 5 (1/8) none,
         .cmd 6 5 (1/8) none, .cmd (15/2) 5 (1/8) none, .cmd 9 5 (1/8) none,
         .cmd 10 5 (1/4) none],
        { total_lines := 7, modifications_made := 1, relative_extrusion := false,
          g2_g3_used := false, g2_g3_lines := [], changes_made := true,
          infill_type := .LINEAR }) ∧
    (6 : ℕ) = Int.toNat ⌊(10 : ℝ) / (6 / 4)⌋ ∧
    |(1/8 : ℝ) - 3/20 * (50/100)| < |(1/8 : ℝ) - 3/20 * (250/100)| ∧
    (1/4 : ℝ) = 1/10 * 1 * (250/100) := by
  refine ⟨run_c2, ?_, ?_, by norm_num⟩
  · norm_num [Int.floor_eq_iff]
    rfl
  · rw [abs_of_nonneg (by norm_num), abs_of_nonpos (by norm_num)]
    norm_num

end OrcaGradientInfill
